import Mathlib

/-!
Verification of the session helpers in src/sqla_helpers.py.

The file defines a shallow embedding of the two components:

* session_scope : a context manager that wraps a unit of work in
  begin / commit-or-rollback / close on a database session;
* resolve_transaction_conflicts, whose inner function wrapped retries the
  decorated function body when the database reports a retryable
  OperationalError, up to a configured retry budget.

The embedding records the sequence of session operations (begin, commit,
rollback, close), the sleeps and the debug-log calls that one invocation
issues, together with the outcome the Python caller observes (a returned
value or a raised exception).
-/

/-- Python exceptions, as far as the handlers in src/sqla_helpers.py can
distinguish them.  An OperationalError carries the verdict of the external
classifier is_retryable_exception as a boolean field (the classifier is a
pure predicate over the error, supplied by a collaborator outside this
repository); exc is any other exception deriving from Exception; baseExc is
an exception deriving from BaseException but not from Exception (for
example KeyboardInterrupt or SystemExit).  The id field distinguishes
individual exception objects. -/
inductive PyErr where
  | opErr (retryable : Bool) (id : Nat)
  | exc (id : Nat)
  | baseExc (id : Nat)
deriving DecidableEq

/-- Modelled from the spec: is_retryable_exception is an external error
classifier capability, not implemented in this repository; the spec calls
it a deterministic, side-effect-free predicate over the caught error.  It
is modelled as reading the retryable flag carried by an OperationalError;
the code only ever consults it on OperationalErrors. -/
def is_retryable_exception : PyErr → Bool
  | .opErr r _ => r
  | _ => false

/-- True exactly on exceptions that derive from BaseException but not from
Exception, which no handler in the source catches. -/
def PyErr.isBaseExc : PyErr → Bool
  | .baseExc _ => true
  | _ => false

/-- Observable events of one invocation: the four session operations, the
fixed sleep between retry attempts (in milliseconds), the optional debug
log call (carrying the attempt counter it reports), and each invocation of
the wrapped function body. -/
inductive SEv where
  | call
  | begin
  | commit
  | rollback
  | close
  | sleep (ms : Nat)
  | log (attempt : Nat)
deriving DecidableEq

/-- True exactly on sleep events. -/
def SEv.isSleep : SEv → Bool
  | .sleep _ => true
  | _ => false

/-- What the caller of a wrapper can observe being raised: the original
exception re-raised unchanged, the UnresolvedDatabaseConflict raised when
the retry budget is exhausted (carrying the cause it was raised from, the
wrapped function identity and the retry budget it formats into its
message), or the RuntimeError raised on invalid decorator usage. -/
inductive WrapErr where
  | orig (e : PyErr)
  | unresolvedConflict (cause : PyErr) (func : Nat) (retries : Nat)
  | runtimeError
deriving DecidableEq

/-- Outcome of one Python call as the caller sees it: a returned value, a
raised exception, or the implicit None returned when a function body falls
off the end. -/
inductive PyResult (α : Type) where
  | ok (v : α)
  | raised (e : WrapErr)
  | noneRet
deriving DecidableEq

/-- Outcome of one invocation of the wrapped function body (or of the unit
of work handed to session_scope): it returns a value or raises. -/
inductive Outcome (α : Type) where
  | ok (v : α)
  | raise (e : PyErr)
deriving DecidableEq

/-- Behaviour of the external session during one session_scope invocation:
whether commit() raises, and whether rollback() raises (each with the
exception it would raise).  begin() and close() are modelled as succeeding;
none of the checked claims concerns their failure. -/
structure SessionBehavior where
  commitRaises : Option PyErr
  rollbackRaises : Option PyErr
deriving DecidableEq

/-- Shallow embedding of session_scope (src/sqla_helpers.py lines 1-12).
begin() runs first; the work runs inside the try; on normal completion of
the work, commit() runs; if the work or commit() raises, the bare except
catches it (a bare except also catches BaseException), rollback() runs and
the exception is re-raised, except that if rollback() itself raises, its
exception propagates instead; close() runs in the finally on every path.
A session operation that raises is still recorded as issued. -/
def session_scope {α : Type} (sb : SessionBehavior) (work : Outcome α) :
    PyResult α × List SEv :=
  match work with
  | .ok v =>
    match sb.commitRaises with
    | none => (.ok v, [.begin, .commit, .close])
    | some e =>
      match sb.rollbackRaises with
      | none => (.raised (.orig e), [.begin, .commit, .rollback, .close])
      | some e2 => (.raised (.orig e2), [.begin, .commit, .rollback, .close])
  | .raise e =>
    match sb.rollbackRaises with
    | none => (.raised (.orig e), [.begin, .rollback, .close])
    | some e2 => (.raised (.orig e2), [.begin, .rollback, .close])

/-- C5: for a unit of work that completes without raising (and a commit()
that succeeds, the successful-invocation frame of the claim), session_scope
returns the value the work returns and issues exactly begin(), commit(),
close(), in that order, with no rollback(). -/
theorem session_scope_success {α : Type} (v : α) (sb : SessionBehavior)
    (hc : sb.commitRaises = none) :
    session_scope sb (.ok v) = (.ok v, [.begin, .commit, .close]) := by
  simp [session_scope, hc]

/-- Witness for session_scope_success at a concrete input. -/
theorem session_scope_success_witness :
    session_scope ⟨none, none⟩ (.ok (7 : Nat))
      = (.ok 7, [.begin, .commit, .close]) :=
  session_scope_success 7 ⟨none, none⟩ rfl

/-- C6: for a unit of work that raises any error (and a rollback() that
succeeds, the failing-invocation frame of the claim), session_scope issues
exactly begin(), rollback(), close(), in that order, and re-raises the
original error unchanged. -/
theorem session_scope_failure {α : Type} (e : PyErr) (sb : SessionBehavior)
    (hr : sb.rollbackRaises = none) :
    session_scope (α := α) sb (.raise e)
      = (.raised (.orig e), [.begin, .rollback, .close]) := by
  simp [session_scope, hr]

/-- Witness for session_scope_failure at a concrete input. -/
theorem session_scope_failure_witness :
    session_scope (α := Nat) ⟨none, none⟩ (.raise (.exc 3))
      = (.raised (.orig (.exc 3)), [.begin, .rollback, .close]) :=
  session_scope_failure (.exc 3) ⟨none, none⟩ rfl

/-- C7: on every exit path of session_scope (normal completion, work
raising, commit() raising, rollback() raising), close() is issued exactly
once and is the last event, hence after commit and rollback have been
attempted. -/
theorem session_scope_close_once {α : Type} (sb : SessionBehavior)
    (w : Outcome α) :
    (session_scope sb w).2.count .close = 1 ∧
      (session_scope sb w).2.getLast? = some .close := by
  obtain ⟨c, r⟩ := sb
  cases w <;> cases c <;> cases r <;> simp [session_scope, List.count_cons]

/-- C8 as stated is false: when commit() itself raises, the bare except
catches it and rolls back, so the trace is begin, commit, rollback, close,
which is neither of the two claimed orders and contains both a commit and a
rollback. -/
theorem session_scope_both_commit_rollback :
    (session_scope ⟨some (PyErr.exc 0), none⟩ (Outcome.ok (0 : Nat))).2
        = [SEv.begin, SEv.commit, SEv.rollback, SEv.close] ∧
    ¬((session_scope ⟨some (PyErr.exc 0), none⟩ (Outcome.ok (0 : Nat))).2
          = [SEv.begin, SEv.commit, SEv.close] ∨
      (session_scope ⟨some (PyErr.exc 0), none⟩ (Outcome.ok (0 : Nat))).2
          = [SEv.begin, SEv.rollback, SEv.close]) := by
  decide

/-- C8 amended: for every invocation in which commit() does not itself
raise, the trace of session calls is exactly one of the two orders begin,
commit, close or begin, rollback, close; in particular no such invocation
produces both a commit and a rollback. -/
theorem session_scope_two_orders {α : Type} (sb : SessionBehavior)
    (w : Outcome α) (hc : sb.commitRaises = none) :
    (session_scope sb w).2 = [SEv.begin, SEv.commit, SEv.close] ∨
    (session_scope sb w).2 = [SEv.begin, SEv.rollback, SEv.close] := by
  obtain ⟨c, r⟩ := sb
  cases hc
  cases w <;> cases r <;> simp [session_scope]

/-- Witness for session_scope_two_orders at a concrete input. -/
theorem session_scope_two_orders_witness :
    (session_scope ⟨none, none⟩ (Outcome.ok (0 : Nat))).2
        = [SEv.begin, SEv.commit, SEv.close] ∨
    (session_scope ⟨none, none⟩ (Outcome.ok (0 : Nat))).2
        = [SEv.begin, SEv.rollback, SEv.close] :=
  session_scope_two_orders ⟨none, none⟩ (Outcome.ok 0) rfl

/-- A mapper object, as probed by the decorator: it exposes a session
attribute.  Sessions are identified by a number. -/
structure Mapper where
  session : Nat
deriving DecidableEq

/-- The receiver object self on which the wrapped method is invoked: it may
expose a _session attribute (mapper-style usage) and may expose a _mapper
attribute (manager-style usage). -/
structure Receiver where
  _session : Option Nat
  _mapper : Option Mapper
deriving DecidableEq

/-- Session resolution of wrapped (src/sqla_helpers.py lines 50-57): use
self._session when present, else self._mapper.session when _mapper is
present, else none (the code then raises RuntimeError). -/
def resolve_session (self : Receiver) : Option Nat :=
  match self._session with
  | some s => some s
  | none =>
    match self._mapper with
    | some m => some m.session
    | none => none

/-- Shallow embedding of the retry loop of wrapped (src/sqla_helpers.py
lines 59-87).  The wrapped function body is modelled as a function f from
the attempt counter to the outcome of that invocation (its arguments are
fixed for the whole call; varying outcomes model the database).  The first
Nat argument is fuel; the caller passes retries + 1, which is exactly the
number of loop iterations the while condition admits, the counter being
incremented before every continue.  When fuel is 0 the loop condition
attempts <= retries has just failed, so the Python function falls off the
end of the while loop and returns None; the inner if repeats the same
condition for the iterations the fuel does admit.  One iteration: call f;
on a normal return, return its value; on a retryable OperationalError,
close the session, increment attempts, raise UnresolvedDatabaseConflict
from the error if attempts now exceeds retries, else sleep 100 ms, log when
a logger is configured, begin and continue; on a non-retryable
OperationalError or any other Exception, rollback, begin and re-raise; an
exception that is not an Exception (BaseException) is caught by no handler
and propagates. -/
def runLoop {α : Type} (retries : Nat) (hasLogger : Bool) (func : Nat)
    (f : Nat → Outcome α) : Nat → Nat → PyResult α × List SEv
  | 0, _ => (.noneRet, [])
  | fuel + 1, attempts =>
    if attempts ≤ retries then
      match f attempts with
      | .ok v => (.ok v, [.call])
      | .raise e =>
        match e with
        | .opErr r i =>
          if is_retryable_exception (.opErr r i) then
            if attempts + 1 > retries then
              (.raised (.unresolvedConflict (.opErr r i) func retries),
                [.call, .close])
            else
              let rest := runLoop retries hasLogger func f fuel (attempts + 1)
              (rest.1,
                [.call, .close, .sleep 100]
                  ++ (if hasLogger then [.log (attempts + 1)] else [])
                  ++ [.begin] ++ rest.2)
          else
            (.raised (.orig (.opErr r i)), [.call, .rollback, .begin])
        | .exc i => (.raised (.orig (.exc i)), [.call, .rollback, .begin])
        | .baseExc i => (.raised (.orig (.baseExc i)), [.call])
    else
      (.noneRet, [])

/-- Shallow embedding of wrapped (src/sqla_helpers.py lines 47-87): resolve
the session from the receiver, raising RuntimeError before any session
operation and before any invocation of f when neither _session nor _mapper
is present; then run the retry loop starting at attempts = 0. -/
def wrapped {α : Type} (retries : Nat) (hasLogger : Bool) (func : Nat)
    (f : Nat → Outcome α) (self : Receiver) : PyResult α × List SEv :=
  match resolve_session self with
  | none => (.raised .runtimeError, [])
  | some _ => runLoop retries hasLogger func f (retries + 1) 0

/-- Core lemma for the retry-then-succeed path: if from attempt a onwards
the body raises a retryable conflict k times and then returns v, with the
k-th attempt still inside the budget and enough fuel, the loop returns v,
closes and begins the session k times each, sleeps exactly k times of
100 ms, and invokes the body k + 1 times. -/
theorem runLoop_retry_ok {α : Type} (retries : Nat) (hl : Bool) (fn : Nat)
    (f : Nat → Outcome α) (g : Nat → Nat) (v : α) :
    ∀ (k a fuel : Nat), a + k ≤ retries → k < fuel →
      (∀ i, i < k → f (a + i) = .raise (.opErr true (g (a + i)))) →
      f (a + k) = .ok v →
      (runLoop retries hl fn f fuel a).1 = .ok v ∧
      (runLoop retries hl fn f fuel a).2.count .close = k ∧
      (runLoop retries hl fn f fuel a).2.count .begin = k ∧
      (runLoop retries hl fn f fuel a).2.filter SEv.isSleep
        = List.replicate k (.sleep 100) ∧
      (runLoop retries hl fn f fuel a).2.count .call = k + 1 := by
  intro k
  induction k with
  | zero =>
    intro a fuel hle hfuel hf hok
    cases fuel with
    | zero => omega
    | succ fuel =>
      rw [Nat.add_zero] at hok
      have ht : runLoop retries hl fn f (fuel + 1) a = (.ok v, [.call]) := by
        simp only [runLoop]
        rw [if_pos (by omega), hok]
      rw [ht]
      refine ⟨rfl, rfl, rfl, rfl, rfl⟩
  | succ k ih =>
    intro a fuel hle hfuel hf hok
    cases fuel with
    | zero => omega
    | succ fuel =>
      have hfa : f a = .raise (.opErr true (g a)) := by
        have h0 := hf 0 (by omega)
        simpa using h0
      have ht : runLoop retries hl fn f (fuel + 1) a
          = ((runLoop retries hl fn f fuel (a + 1)).1,
              [.call, .close, .sleep 100]
                ++ (if hl then [.log (a + 1)] else [])
                ++ [.begin] ++ (runLoop retries hl fn f fuel (a + 1)).2) := by
        simp only [runLoop]
        rw [if_pos (by omega), hfa]
        simp only [is_retryable_exception, if_true]
        rw [if_neg (by omega)]
      have hrec := ih (a + 1) fuel (by omega) (by omega)
        (fun i hi => by
          have hh := hf (i + 1) (by omega)
          rw [show a + 1 + i = a + (i + 1) by omega]
          exact hh)
        (by rw [show a + 1 + k = a + (k + 1) by omega]; exact hok)
      obtain ⟨h1, h2, h3, h4, h5⟩ := hrec
      rw [ht]
      refine ⟨h1, ?_, ?_, ?_, ?_⟩ <;>
        cases hl <;>
          simp [List.count_append, List.count_cons, List.filter_append,
            h2, h3, h4, h5, SEv.isSleep, List.replicate_succ]

/-- Core lemma for the exhausted-budget path: if from attempt a onwards the
body raises a retryable conflict on every attempt up to attempt a + k,
where a + k = retries, the loop raises UnresolvedDatabaseConflict from the
error of the last attempt, carrying the function identity and the retry
budget, after k + 1 invocations of the body and k + 1 close() calls. -/
theorem runLoop_retry_exhaust {α : Type} (retries : Nat) (hl : Bool)
    (fn : Nat) (f : Nat → Outcome α) (g : Nat → Nat) :
    ∀ (k a fuel : Nat), a + k = retries → k < fuel →
      (∀ i, i ≤ k → f (a + i) = .raise (.opErr true (g (a + i)))) →
      (runLoop retries hl fn f fuel a).1
        = .raised (.unresolvedConflict (.opErr true (g retries)) fn retries) ∧
      (runLoop retries hl fn f fuel a).2.count .call = k + 1 ∧
      (runLoop retries hl fn f fuel a).2.count .close = k + 1 := by
  intro k
  induction k with
  | zero =>
    intro a fuel heq hfuel hf
    cases fuel with
    | zero => omega
    | succ fuel =>
      have hfa : f a = .raise (.opErr true (g a)) := by
        have h0 := hf 0 (by omega)
        simpa using h0
      have ht : runLoop retries hl fn f (fuel + 1) a
          = (.raised (.unresolvedConflict (.opErr true (g a)) fn retries),
              [.call, .close]) := by
        simp only [runLoop]
        rw [if_pos (by omega), hfa]
        simp only [is_retryable_exception, if_true]
        rw [if_pos (by omega)]
      rw [ht]
      rw [show a = retries from by omega]
      exact ⟨rfl, rfl, rfl⟩
  | succ k ih =>
    intro a fuel heq hfuel hf
    cases fuel with
    | zero => omega
    | succ fuel =>
      have hfa : f a = .raise (.opErr true (g a)) := by
        have h0 := hf 0 (by omega)
        simpa using h0
      have ht : runLoop retries hl fn f (fuel + 1) a
          = ((runLoop retries hl fn f fuel (a + 1)).1,
              [.call, .close, .sleep 100]
                ++ (if hl then [.log (a + 1)] else [])
                ++ [.begin] ++ (runLoop retries hl fn f fuel (a + 1)).2) := by
        simp only [runLoop]
        rw [if_pos (by omega), hfa]
        simp only [is_retryable_exception, if_true]
        rw [if_neg (by omega)]
      have hrec := ih (a + 1) fuel (by omega) (by omega)
        (fun i hi => by
          have hh := hf (i + 1) (by omega)
          rw [show a + 1 + i = a + (i + 1) by omega]
          exact hh)
      obtain ⟨h1, h2, h3⟩ := hrec
      rw [ht]
      refine ⟨h1, ?_, ?_⟩ <;>
        cases hl <;>
          simp [List.count_append, List.count_cons, h2, h3]

/-- Shape of every terminating run of the retry loop started with adequate
fuel: it returns a value and the trace ends with the final invocation of
the body (no session operation after it); or it raises
UnresolvedDatabaseConflict and the trace ends with the final invocation
followed by close() and nothing after; or it re-raises a non-retryable
Exception and the trace ends with the final invocation followed by
rollback() then begin(); or it propagates a BaseException and the trace
ends with the final invocation. -/
theorem runLoop_shape {α : Type} (retries : Nat) (hl : Bool) (fn : Nat)
    (f : Nat → Outcome α) :
    ∀ (fuel a : Nat), a ≤ retries → retries + 1 - a ≤ fuel →
      (∃ v, (runLoop retries hl fn f fuel a).1 = .ok v ∧
        ∃ pre, (runLoop retries hl fn f fuel a).2 = pre ++ [SEv.call]) ∨
      (∃ c, (runLoop retries hl fn f fuel a).1
            = .raised (.unresolvedConflict c fn retries) ∧
        ∃ pre, (runLoop retries hl fn f fuel a).2
            = pre ++ [SEv.call, SEv.close]) ∨
      (∃ e, PyErr.isBaseExc e = false ∧
        (runLoop retries hl fn f fuel a).1 = .raised (.orig e) ∧
        ∃ pre, (runLoop retries hl fn f fuel a).2
            = pre ++ [SEv.call, SEv.rollback, SEv.begin]) ∨
      (∃ i, (runLoop retries hl fn f fuel a).1
            = .raised (.orig (.baseExc i)) ∧
        ∃ pre, (runLoop retries hl fn f fuel a).2 = pre ++ [SEv.call]) := by
  intro fuel
  induction fuel with
  | zero => intro a hle hfu; omega
  | succ fuel ih =>
    intro a hle hfu
    cases hfa : f a with
    | ok v =>
      have ht : runLoop retries hl fn f (fuel + 1) a = (.ok v, [.call]) := by
        simp only [runLoop]
        rw [if_pos hle, hfa]
      exact Or.inl ⟨v, by rw [ht], [], by simp [ht]⟩
    | raise e =>
      cases e with
      | opErr r i =>
        cases r with
        | true =>
          by_cases hgt : a + 1 > retries
          · have ht : runLoop retries hl fn f (fuel + 1) a
                = (.raised (.unresolvedConflict (.opErr true i) fn retries),
                    [.call, .close]) := by
              simp only [runLoop]
              rw [if_pos hle, hfa]
              simp only [is_retryable_exception, if_true]
              rw [if_pos hgt]
            exact Or.inr (Or.inl ⟨.opErr true i, by rw [ht], [], by simp [ht]⟩)
          · have ht : runLoop retries hl fn f (fuel + 1) a
                = ((runLoop retries hl fn f fuel (a + 1)).1,
                    [.call, .close, .sleep 100]
                      ++ (if hl then [.log (a + 1)] else [])
                      ++ [.begin]
                      ++ (runLoop retries hl fn f fuel (a + 1)).2) := by
              simp only [runLoop]
              rw [if_pos hle, hfa]
              simp only [is_retryable_exception, if_true]
              rw [if_neg hgt]
            have hrec := ih (a + 1) (by omega) (by omega)
            rcases hrec with ⟨v, hv, pre, hp⟩ | ⟨c, hc, pre, hp⟩ |
              ⟨e, hbe, he, pre, hp⟩ | ⟨i, hi, pre, hp⟩
            · refine Or.inl ⟨v, by rw [ht]; exact hv, ?_⟩
              refine ⟨[SEv.call, SEv.close, SEv.sleep 100]
                  ++ (if hl then [SEv.log (a + 1)] else [])
                  ++ [SEv.begin] ++ pre, ?_⟩
              rw [ht]
              simp only [hp, List.append_assoc]
            · refine Or.inr (Or.inl ⟨c, by rw [ht]; exact hc, ?_⟩)
              refine ⟨[SEv.call, SEv.close, SEv.sleep 100]
                  ++ (if hl then [SEv.log (a + 1)] else [])
                  ++ [SEv.begin] ++ pre, ?_⟩
              rw [ht]
              simp only [hp, List.append_assoc]
            · refine Or.inr (Or.inr (Or.inl
                ⟨e, hbe, by rw [ht]; exact he, ?_⟩))
              refine ⟨[SEv.call, SEv.close, SEv.sleep 100]
                  ++ (if hl then [SEv.log (a + 1)] else [])
                  ++ [SEv.begin] ++ pre, ?_⟩
              rw [ht]
              simp only [hp, List.append_assoc]
            · refine Or.inr (Or.inr (Or.inr
                ⟨i, by rw [ht]; exact hi, ?_⟩))
              refine ⟨[SEv.call, SEv.close, SEv.sleep 100]
                  ++ (if hl then [SEv.log (a + 1)] else [])
                  ++ [SEv.begin] ++ pre, ?_⟩
              rw [ht]
              simp only [hp, List.append_assoc]
        | false =>
          have ht : runLoop retries hl fn f (fuel + 1) a
              = (.raised (.orig (.opErr false i)),
                  [.call, .rollback, .begin]) := by
            simp only [runLoop]
            rw [if_pos hle, hfa]
            simp [is_retryable_exception]
          exact Or.inr (Or.inr (Or.inl
            ⟨.opErr false i, rfl, by rw [ht], [], by simp [ht]⟩))
      | exc i =>
        have ht : runLoop retries hl fn f (fuel + 1) a
            = (.raised (.orig (.exc i)), [.call, .rollback, .begin]) := by
          simp only [runLoop]
          rw [if_pos hle, hfa]
        exact Or.inr (Or.inr (Or.inl
          ⟨.exc i, rfl, by rw [ht], [], by simp [ht]⟩))
      | baseExc i =>
        have ht : runLoop retries hl fn f (fuel + 1) a
            = (.raised (.orig (.baseExc i)), [.call]) := by
          simp only [runLoop]
          rw [if_pos hle, hfa]
        exact Or.inr (Or.inr (Or.inr ⟨i, by rw [ht], [], by simp [ht]⟩))

/-- C1: for a wrapped function that raises a retryable conflict on its
first k invocations and returns v on invocation k, with k within the retry
budget, the wrapper returns v, having issued close() exactly k times and
begin() exactly k times on the resolved session, and having slept exactly
k times, each sleep the fixed 100 ms delay. -/
theorem wrapped_retry_then_success {α : Type} (retries k : Nat) (hl : Bool)
    (fn : Nat) (g : Nat → Nat) (v : α) (f : Nat → Outcome α)
    (self : Receiver) (s : Nat)
    (hs : resolve_session self = some s)
    (hk : k ≤ retries)
    (hf : ∀ i, i < k → f i = .raise (.opErr true (g i)))
    (hok : f k = .ok v) :
    (wrapped retries hl fn f self).1 = .ok v ∧
    (wrapped retries hl fn f self).2.count .close = k ∧
    (wrapped retries hl fn f self).2.count .begin = k ∧
    (wrapped retries hl fn f self).2.filter SEv.isSleep
      = List.replicate k (.sleep 100) := by
  have hw : wrapped retries hl fn f self
      = runLoop retries hl fn f (retries + 1) 0 := by
    simp [wrapped, hs]
  have h := runLoop_retry_ok retries hl fn f g v k 0 (retries + 1)
    (by omega) (by omega)
    (fun i hi => by simpa using hf i hi)
    (by simpa using hok)
  rw [hw]
  exact ⟨h.1, h.2.1, h.2.2.1, h.2.2.2.1⟩

/-- Witness for wrapped_retry_then_success: budget 2, two retryable
conflicts then success with value 42. -/
theorem wrapped_retry_then_success_witness :
    (wrapped 2 false 0
        (fun i => if i < 2 then Outcome.raise (.opErr true i)
          else .ok (42 : Nat)) ⟨some 0, none⟩).1 = .ok 42 ∧
    (wrapped 2 false 0
        (fun i => if i < 2 then Outcome.raise (.opErr true i)
          else .ok (42 : Nat)) ⟨some 0, none⟩).2.count .close = 2 ∧
    (wrapped 2 false 0
        (fun i => if i < 2 then Outcome.raise (.opErr true i)
          else .ok (42 : Nat)) ⟨some 0, none⟩).2.count .begin = 2 ∧
    (wrapped 2 false 0
        (fun i => if i < 2 then Outcome.raise (.opErr true i)
          else .ok (42 : Nat)) ⟨some 0, none⟩).2.filter SEv.isSleep
      = List.replicate 2 (.sleep 100) :=
  wrapped_retry_then_success 2 2 false 0 (fun i => i) 42
    (fun i => if i < 2 then Outcome.raise (.opErr true i) else .ok (42 : Nat))
    ⟨some 0, none⟩ 0 rfl (by omega) (by decide) (by decide)

/-- C2: for a wrapped function that raises a retryable conflict on every
invocation, the wrapper raises UnresolvedDatabaseConflict after exactly
retries + 1 invocations of the function; the raised error is raised from
the conflict error of the last attempt and carries the function identity
and the originally-requested retry budget. -/
theorem wrapped_exhausts_budget {α : Type} (retries : Nat) (hl : Bool)
    (fn : Nat) (g : Nat → Nat) (f : Nat → Outcome α) (self : Receiver)
    (s : Nat)
    (hs : resolve_session self = some s)
    (hf : ∀ i, f i = .raise (.opErr true (g i))) :
    (wrapped retries hl fn f self).1
      = .raised (.unresolvedConflict (.opErr true (g retries)) fn retries) ∧
    (wrapped retries hl fn f self).2.count .call = retries + 1 := by
  have hw : wrapped retries hl fn f self
      = runLoop retries hl fn f (retries + 1) 0 := by
    simp [wrapped, hs]
  have h := runLoop_retry_exhaust retries hl fn f g retries 0 (retries + 1)
    (by omega) (by omega) (fun i _ => by simpa using hf i)
  rw [hw]
  exact ⟨h.1, h.2.1⟩

/-- Witness for wrapped_exhausts_budget: budget 1, always-conflicting
function, so two invocations then the wrapping error. -/
theorem wrapped_exhausts_budget_witness :
    (wrapped 1 false 7
        (fun i => Outcome.raise (.opErr true i) : Nat → Outcome Nat)
        ⟨some 0, none⟩).1
      = .raised (.unresolvedConflict (.opErr true 1) 7 1) ∧
    (wrapped 1 false 7
        (fun i => Outcome.raise (.opErr true i) : Nat → Outcome Nat)
        ⟨some 0, none⟩).2.count .call = 2 :=
  wrapped_exhausts_budget 1 false 7 (fun i => i)
    (fun i => Outcome.raise (.opErr true i)) ⟨some 0, none⟩ 0 rfl
    (fun _ => rfl)

/-- C3: for a wrapped function whose first invocation raises an error that
is not a retryable conflict (a non-retryable OperationalError or any other
Exception), the wrapper issues rollback() then begin() and re-raises the
original error unchanged, with zero sleeps and no further invocation. -/
theorem wrapped_nonretryable {α : Type} (retries : Nat) (hl : Bool)
    (fn : Nat) (e : PyErr) (f : Nat → Outcome α) (self : Receiver) (s : Nat)
    (hs : resolve_session self = some s)
    (he : is_retryable_exception e = false)
    (hbase : PyErr.isBaseExc e = false)
    (hf : f 0 = .raise e) :
    wrapped retries hl fn f self
      = (.raised (.orig e), [.call, .rollback, .begin]) := by
  have hw : wrapped retries hl fn f self
      = runLoop retries hl fn f (retries + 1) 0 := by
    simp [wrapped, hs]
  rw [hw]
  cases e with
  | opErr r i =>
    cases r with
    | true => simp [is_retryable_exception] at he
    | false =>
      simp only [runLoop]
      rw [if_pos (by omega), hf]
      simp [is_retryable_exception]
  | exc _ =>
    simp only [runLoop]
    rw [if_pos (by omega), hf]
  | baseExc _ => simp [PyErr.isBaseExc] at hbase

/-- Witness for wrapped_nonretryable: a non-retryable OperationalError on
the first invocation. -/
theorem wrapped_nonretryable_witness :
    wrapped 3 false 0
        (fun _ => Outcome.raise (.opErr false 5) : Nat → Outcome Nat)
        ⟨some 2, none⟩
      = (.raised (.orig (.opErr false 5)), [.call, .rollback, .begin]) :=
  wrapped_nonretryable 3 false 0 (.opErr false 5)
    (fun _ => Outcome.raise (.opErr false 5)) ⟨some 2, none⟩ 2
    rfl rfl rfl rfl

/-- C4: session resolution of the wrapper: a receiver exposing _session
resolves to it, whatever _mapper holds; a receiver without _session but
with _mapper resolves to the session of the mapper; a receiver with
neither makes the wrapper raise RuntimeError with an empty trace, hence
before any session operation and before any invocation of the function. -/
theorem wrapped_session_resolution {α : Type} (retries : Nat) (hl : Bool)
    (fn s : Nat) (m : Mapper) (om : Option Mapper) (f : Nat → Outcome α) :
    resolve_session ⟨some s, om⟩ = some s ∧
    resolve_session ⟨none, some m⟩ = some m.session ∧
    wrapped retries hl fn f ⟨none, none⟩ = (.raised .runtimeError, []) :=
  ⟨rfl, rfl, rfl⟩

/-- C10: a raised exception that no handler catches (BaseException but not
Exception, such as KeyboardInterrupt) propagates out of the wrapper with
no rollback, begin, close or sleep issued by it. -/
theorem wrapped_base_exception_propagates {α : Type} (retries : Nat)
    (hl : Bool) (fn i : Nat) (f : Nat → Outcome α) (self : Receiver)
    (s : Nat)
    (hs : resolve_session self = some s)
    (hf : f 0 = .raise (.baseExc i)) :
    wrapped retries hl fn f self
      = (.raised (.orig (.baseExc i)), [SEv.call]) := by
  have hw : wrapped retries hl fn f self
      = runLoop retries hl fn f (retries + 1) 0 := by
    simp [wrapped, hs]
  rw [hw]
  simp only [runLoop]
  rw [if_pos (by omega), hf]

/-- Witness for wrapped_base_exception_propagates at a concrete input. -/
theorem wrapped_base_exception_propagates_witness :
    wrapped 2 false 0
        (fun _ => Outcome.raise (.baseExc 9) : Nat → Outcome Nat)
        ⟨some 0, none⟩
      = (.raised (.orig (.baseExc 9)), [SEv.call]) :=
  wrapped_base_exception_propagates 2 false 0 9
    (fun _ => Outcome.raise (.baseExc 9)) ⟨some 0, none⟩ 0 rfl rfl

/-- C9: session-state invariant of the wrapper.  On a normal return the
trace ends with the final invocation of the function, so no begin,
rollback or close of its own follows the success; when it raises
UnresolvedDatabaseConflict the last session operation issued is close(),
with no begin() after it; and when it re-raises an uncaught-by-retry
Exception the trace ends with rollback() followed by begin(), so a fresh
begin() has been issued exactly on that path. -/
theorem wrapped_session_state_invariant {α : Type} (retries : Nat)
    (hl : Bool) (fn : Nat) (f : Nat → Outcome α) (self : Receiver) (s : Nat)
    (hs : resolve_session self = some s) :
    (∀ v : α, (wrapped retries hl fn f self).1 = .ok v →
      ∃ pre, (wrapped retries hl fn f self).2 = pre ++ [SEv.call]) ∧
    (∀ c i b, (wrapped retries hl fn f self).1
          = .raised (.unresolvedConflict c i b) →
      ∃ pre, (wrapped retries hl fn f self).2
          = pre ++ [SEv.call, SEv.close]) ∧
    (∀ e, PyErr.isBaseExc e = false →
      (wrapped retries hl fn f self).1 = .raised (.orig e) →
      ∃ pre, (wrapped retries hl fn f self).2
          = pre ++ [SEv.call, SEv.rollback, SEv.begin]) := by
  have hw : wrapped retries hl fn f self
      = runLoop retries hl fn f (retries + 1) 0 := by
    simp [wrapped, hs]
  have hsh := runLoop_shape retries hl fn f (retries + 1) 0
    (by omega) (by omega)
  rw [hw]
  rcases hsh with ⟨v, hv, pre, hp⟩ | ⟨c, hc, pre, hp⟩ |
    ⟨e, hbe, he, pre, hp⟩ | ⟨i, hi, pre, hp⟩
  · refine ⟨fun w hww => ⟨pre, hp⟩,
      fun c i b hcc => absurd (hv.symm.trans hcc) (by simp),
      fun e hbe2 he2 => absurd (hv.symm.trans he2) (by simp)⟩
  · refine ⟨fun w hww => absurd (hc.symm.trans hww) (by simp),
      fun c' i' b' hcc => ⟨pre, hp⟩,
      fun e hbe2 he2 => absurd (hc.symm.trans he2) (by simp)⟩
  · refine ⟨fun w hww => absurd (he.symm.trans hww) (by simp),
      fun c' i' b' hcc => absurd (he.symm.trans hcc) (by simp),
      fun e' hbe2 he2 => ⟨pre, hp⟩⟩
  · refine ⟨fun w hww => absurd (hi.symm.trans hww) (by simp),
      fun c' i' b' hcc => absurd (hi.symm.trans hcc) (by simp),
      fun e' hbe2 he2 => ?_⟩
    have hee : PyErr.baseExc i = e' := by
      have := hi.symm.trans he2
      simpa using this
    rw [← hee] at hbe2
    simp [PyErr.isBaseExc] at hbe2

/-- Witness for wrapped_session_state_invariant: the three exit kinds at
concrete inputs (direct success; exhausted budget with a zero budget;
non-retryable Exception). -/
theorem wrapped_session_state_invariant_witness :
    (∃ pre, (wrapped 1 false 0
        (fun _ => Outcome.ok (5 : Nat)) ⟨some 0, none⟩).2
      = pre ++ [SEv.call]) ∧
    (∃ pre, (wrapped 0 false 0
        (fun i => Outcome.raise (.opErr true i) : Nat → Outcome Nat)
        ⟨some 0, none⟩).2
      = pre ++ [SEv.call, SEv.close]) ∧
    (∃ pre, (wrapped 1 false 0
        (fun _ => Outcome.raise (.exc 4) : Nat → Outcome Nat)
        ⟨some 0, none⟩).2
      = pre ++ [SEv.call, SEv.rollback, SEv.begin]) :=
  ⟨(wrapped_session_state_invariant 1 false 0
      (fun _ => Outcome.ok (5 : Nat)) ⟨some 0, none⟩ 0 rfl).1 5 rfl,
   (wrapped_session_state_invariant 0 false 0
      (fun i => Outcome.raise (.opErr true i)) ⟨some 0, none⟩ 0 rfl).2.1
      (.opErr true 0) 0 0 rfl,
   (wrapped_session_state_invariant 1 false 0
      (fun _ => Outcome.raise (.exc 4)) ⟨some 0, none⟩ 0 rfl).2.2
      (.exc 4) rfl rfl⟩
